import Mathlib

/-!
Verification of the BeautyVibe AI response-normalization and fallback layer
(`app/services/ai_service.py`, `app/schemas.py`).

The Python code is shallowly embedded as executable Lean definitions:

* image bytes are `List Nat` (one entry per byte);
* JSON values produced by `json.loads` are the inductive `Json`
  (numbers are modelled as integers — every numeric literal the claims
  exercise is an integer);
* Python dictionaries are association lists (`PyDict`) with first-match
  lookup and in-place replacement, matching insertion-order semantics;
* Python exceptions are the inductive `PyExc`; a function that can raise
  returns `Except PyExc _`.  The `try/except (OpenAIError,
  json.JSONDecodeError, KeyError, ValueError)` blocks of the service are
  modelled by running the body and then dispatching on `isCaught`;
* the external OpenAI call together with `json.loads` on its returned
  content is the abstract input `GatewayOutcome`: either the provider
  raised (`providerError`), or the returned text failed to parse
  (`response (.error _)` — a `json.JSONDecodeError`), or it parsed to a
  `Json` value (`response (.ok _)`).
-/

namespace BeautyVibe

/-! ### Python string primitives (ASCII semantics) -/

/-- Characters removed by Python `str.strip()` (ASCII whitespace). -/
def pySpace (c : Char) : Bool :=
  c == ' ' || c == '\t' || c == '\n' || c == '\r' || c == '\x0b' || c == '\x0c'

/-- Python `str.strip()`. -/
def pyStrip (s : String) : String :=
  ⟨((s.data.dropWhile pySpace).reverse.dropWhile pySpace).reverse⟩

/-- Python `str.lower()` (ASCII). -/
def pyLower (s : String) : String := ⟨s.data.map Char.toLower⟩

/-- Python `str.upper()` (ASCII). -/
def pyUpper (s : String) : String := ⟨s.data.map Char.toUpper⟩

/-- Helper for `pyTitle`: the flag records whether the previous character
was alphabetic (Python: cased). -/
def pyTitleAux : Bool → List Char → List Char
  | _, [] => []
  | prevAlpha, c :: rest =>
    if c.isAlpha then
      (if prevAlpha then c.toLower else c.toUpper) :: pyTitleAux true rest
    else
      c :: pyTitleAux false rest

/-- Python `str.title()` (ASCII): the first letter of every alphabetic run
is upper-cased, the rest lower-cased. -/
def pyTitle (s : String) : String := ⟨pyTitleAux false s.data⟩

/-- Python `needle in hay` on sequences: contiguous-subsequence test. -/
def listContainsSub {α : Type} [BEq α] (needle : List α) : List α → Bool
  | [] => needle.isEmpty
  | c :: t => needle.isPrefixOf (c :: t) || listContainsSub needle t

/-- Python `needle in hay` on strings. -/
def strContains (hay needle : String) : Bool :=
  listContainsSub needle.data hay.data

/-- Python `s.startswith(pre)`. -/
def strStartsWith (s pre : String) : Bool :=
  pre.data.isPrefixOf s.data

/-! ### Exceptions (`PyExc`) -/

/-- The Python exceptions that can arise in the embedded fragment.  Each
carries its message (`str(exc)`); `httpError` carries the HTTP status code
and the `detail` string of the `fastapi.HTTPException`. -/
inductive PyExc where
  | openAIError (msg : String)
  | jsonDecodeError (msg : String)
  | keyError (msg : String)
  | valueError (msg : String)
  | typeError (msg : String)
  | attributeError (msg : String)
  | indexError (msg : String)
  | httpError (statusCode : Nat) (detail : String)
  | aiServiceError (detail : String)

/-- Membership in the tuple `(OpenAIError, json.JSONDecodeError, KeyError,
ValueError)` caught by both service functions. -/
def isCaught : PyExc → Bool
  | .openAIError _ | .jsonDecodeError _ | .keyError _ | .valueError _ => true
  | _ => false

/-- `str(exc)` for the modelled exceptions. -/
def excStr : PyExc → String
  | .openAIError m | .jsonDecodeError m | .keyError m | .valueError m
  | .typeError m | .attributeError m | .indexError m => m
  | .httpError _ d => d
  | .aiServiceError d => d

/-! ### Image validation (`_detect_mime`, `_validate_image`) -/

/-- JPEG magic bytes `FF D8 FF`. -/
def jpegSig : List Nat := [0xff, 0xd8, 0xff]

/-- PNG magic bytes `89 50 4E 47 0D 0A 1A 0A` (`\x89PNG\r\n\x1a\n`). -/
def pngSig : List Nat := [0x89, 0x50, 0x4e, 0x47, 0x0d, 0x0a, 0x1a, 0x0a]

/-- The bytes of `b"RIFF"`. -/
def riffSig : List Nat := [0x52, 0x49, 0x46, 0x46]

/-- The bytes of `b"WEBP"`. -/
def webpSig : List Nat := [0x57, 0x45, 0x42, 0x50]

/-- `ai_service._detect_mime`: detect the image MIME type from magic
bytes. -/
def _detect_mime (image_bytes : List Nat) : String :=
  if image_bytes.take 3 = jpegSig then "image/jpeg"
  else if image_bytes.take 8 = pngSig then "image/png"
  else if image_bytes.take 4 = riffSig ∨ image_bytes.take 4 = webpSig ∨
          listContainsSub webpSig (image_bytes.take 12) = true then "image/webp"
  else "application/octet-stream"

/-- `ai_service._MIME_TO_PREFIX`: accepted MIME types and their data-URL
prefixes. -/
def _MIME_TO_PREFIX : List (String × String) :=
  [("image/jpeg", "data:image/jpeg;base64,"),
   ("image/jpg",  "data:image/jpeg;base64,"),
   ("image/png",  "data:image/png;base64,"),
   ("image/webp", "data:image/webp;base64,")]

/-- `ai_service._validate_image`, parameterised by the configured
`MAX_IMAGE_SIZE_MB` (`settings.max_image_bytes = MAX_IMAGE_SIZE_MB * 1024
* 1024`; the repository default is 5).  Returns the detected MIME type, or
the `HTTPException` the Python code raises. -/
def _validate_image (sizeMB : Nat) (image_bytes : List Nat) : Except PyExc String :=
  if image_bytes.length > sizeMB * 1024 * 1024 then
    .error (.httpError 413 ("Image exceeds the " ++ toString sizeMB ++ " MB limit."))
  else
    let mime := _detect_mime image_bytes
    if (_MIME_TO_PREFIX.find? (fun kv => kv.1 == mime)).isSome then
      .ok mime
    else
      .error (.httpError 415
        ("Unsupported image type '" ++ mime ++ "'. Accepted: JPEG, PNG, WebP."))

/-- The configuration default `MAX_IMAGE_SIZE_MB = 5` from
`app/core/config.py`. -/
def MAX_IMAGE_SIZE_MB_default : Nat := 5

/-! ### JSON values and Python dictionaries -/

/-- A value returned by `json.loads`.  Numbers are modelled as integers
(every numeric value exercised by the specification is an integer). -/
inductive Json where
  | null
  | bool (b : Bool)
  | num (n : Int)
  | str (s : String)
  | arr (elems : List Json)
  | obj (fields : List (String × Json))

/-- The Python type name of a `Json` value, as it appears in runtime error
messages. -/
def jsonTypeName : Json → String
  | .null => "NoneType"
  | .bool _ => "bool"
  | .num _ => "int"
  | .str _ => "str"
  | .arr _ => "list"
  | .obj _ => "dict"

/-- A Python dictionary with `Json` values, in insertion order. -/
abbrev PyDict : Type := List (String × Json)

/-- Python `d.get(key)`: `none` models both a missing key and `None` as
the default. -/
def dictGet : PyDict → String → Option Json
  | [], _ => none
  | kv :: t, key => if kv.1 = key then some kv.2 else dictGet t key

/-- Python `d[key] = v`: replace in place when the key exists, else append. -/
def dictSet : PyDict → String → Json → PyDict
  | [], key, v => [(key, v)]
  | kv :: t, key, v => if kv.1 = key then (key, v) :: t else kv :: dictSet t key v

/-- Python `d.setdefault(key, v)`. -/
def dictSetdefault (d : PyDict) (key : String) (v : Json) : PyDict :=
  match dictGet d key with
  | some _ => d
  | none => d ++ [(key, v)]

/-- Python `(x or "")` followed by a string-method call (`.strip()` /
`.lower()`), applied to an optional JSON field value: a falsy value (`None`,
missing, `""`, `0`, `False`, `[]`, `{}`) yields `""`; a truthy string
yields itself; any other truthy value has no such string attribute, so an
`AttributeError` is raised.  `attr` is the method name used in the error
message. -/
def pyOrStr (v : Option Json) (attr : String) : Except PyExc String :=
  match v with
  | none => .ok ""
  | some .null => .ok ""
  | some (.str s) => .ok s
  | some (.bool b) =>
    if b then
      .error (.attributeError ("'bool' object has no attribute '" ++ attr ++ "'"))
    else .ok ""
  | some (.num n) =>
    if n = 0 then .ok ""
    else .error (.attributeError ("'int' object has no attribute '" ++ attr ++ "'"))
  | some (.arr l) =>
    if l.isEmpty then .ok ""
    else .error (.attributeError ("'list' object has no attribute '" ++ attr ++ "'"))
  | some (.obj l) =>
    if l.isEmpty then .ok ""
    else .error (.attributeError ("'dict' object has no attribute '" ++ attr ++ "'"))

/-- Decimal value of a digit list. -/
def digitsToNat (ds : List Char) : Nat :=
  ds.foldl (fun a c => a * 10 + (c.toNat - 48)) 0

/-- Python `int(s)` on a string: surrounding whitespace and one optional
sign are allowed, then one or more decimal digits; anything else raises
`ValueError`. -/
def pyIntOfStr (s : String) : Except PyExc Int :=
  let t := pyStrip s
  let core : Int × List Char :=
    match t.data with
    | '+' :: r => (1, r)
    | '-' :: r => (-1, r)
    | r => (1, r)
  if core.2 ≠ [] ∧ core.2.all Char.isDigit then
    .ok (core.1 * (digitsToNat core.2 : Int))
  else
    .error (.valueError ("invalid literal for int() with base 10: '" ++ s ++ "'"))

/-- Python `int(x)` on a JSON value: integers pass through, booleans map
to 0/1, strings are parsed (`ValueError` on failure), every other type
raises `TypeError`. -/
def pyInt : Json → Except PyExc Int
  | .num n => .ok n
  | .bool b => .ok (if b then 1 else 0)
  | .str s => pyIntOfStr s
  | v => .error (.typeError
      ("int() argument must be a string, a bytes-like object or a real number, not '"
        ++ jsonTypeName v ++ "'"))

/-- The clamp `max(0, min(100, n))` used for `confidence_score` and
`match_score`. -/
def pyClamp (n : Int) : Int := max 0 (min 100 n)

/-! ### Analysis normalization (`analyze_face_image`) -/

/-- The enum set `SKIN_TONES` from `app/schemas.py`. -/
def SKIN_TONES : List String := ["Fair", "Light", "Medium", "Tan", "Deep"]

/-- The enum set `UNDERTONES` from `app/schemas.py`. -/
def UNDERTONES : List String := ["Cool", "Neutral", "Warm"]

/-- The enum set `FACE_SHAPES` from `app/schemas.py`, equal to the `valid`
set inside `_resolve_face_shape`. -/
def FACE_SHAPES : List String := ["Oval", "Round", "Square", "Heart", "Diamond", "Oblong"]

/-- The lower-case candidate tuple scanned, in order, by
`_resolve_face_shape`. -/
def shapeCandidates : List String := ["oval", "round", "square", "heart", "diamond", "oblong"]

/-- The summary scan of `_resolve_face_shape`: return the title-cased
first candidate occurring in the (already lower-cased) summary, else
`"Oval"`. -/
def scanShapes (summary : String) : String :=
  match shapeCandidates.find? (fun c => strContains summary c) with
  | some c => pyTitle c
  | none => "Oval"

/-- `ai_service._resolve_face_shape`: keep a case-normalized valid field
value, otherwise scan the summary, otherwise default to `"Oval"`.  The
`(… or "").strip()` / `.lower()` steps can raise `AttributeError` on
truthy non-string field values, exactly as in Python. -/
def _resolve_face_shape (result : PyDict) : Except PyExc String :=
  match pyOrStr (dictGet result "face_shape") "strip" with
  | .error e => .error e
  | .ok fs =>
    let shape := pyTitle (pyStrip fs)
    if shape ∈ FACE_SHAPES then .ok shape
    else
      match pyOrStr (dictGet result "summary") "lower" with
      | .error e => .error e
      | .ok sm => .ok (scanShapes (pyLower sm))

/-- `ai_service._FALLBACK_ANALYSIS`. -/
def _FALLBACK_ANALYSIS : PyDict :=
  [("skin_tone", .str "Medium"),
   ("undertone", .str "Neutral"),
   ("face_shape", .str "Oval"),
   ("eye_color", .str "Unknown"),
   ("confidence_score", .num 0),
   ("summary", .str "Analysis unavailable — please try again.")]

/-- The body of the `try` block of `analyze_face_image` after the parsed
response `j` is bound (lines 159–173): sanitise `face_shape`, clamp
`confidence_score`, default `eye_color` and `summary`.  A non-`dict`
parse result raises `AttributeError` at the first `result.get` call. -/
def tryBodyAnalyze (j : Json) : Except PyExc PyDict :=
  match j with
  | .obj kvs =>
    match _resolve_face_shape kvs with
    | .error e => .error e
    | .ok fs =>
      let d1 := dictSet kvs "face_shape" (.str fs)
      match pyInt ((dictGet d1 "confidence_score").getD (.num 0)) with
      | .error e => .error e
      | .ok n =>
        let d2 := dictSet d1 "confidence_score" (.num (pyClamp n))
        let d3 := dictSetdefault d2 "eye_color" (.str "Unknown")
        .ok (dictSetdefault d3 "summary" (.str ""))
  | _ =>
    .error (.attributeError ("'" ++ jsonTypeName j ++ "' object has no attribute 'get'"))

/-- The outcome of the external OpenAI call followed by `json.loads` on
the returned content: the provider raised (`OpenAIError`), or the text was
not valid JSON (`json.JSONDecodeError` with the given message), or it
parsed to a `Json` value. -/
inductive GatewayOutcome where
  | providerError (msg : String)
  | response (parsed : Except String Json)

/-- The post-gateway processing of `analyze_face_image`: the `try` body
applied to the gateway outcome, with the `except (OpenAIError,
json.JSONDecodeError, KeyError, ValueError)` handler building the fallback
dictionary (`dict(_FALLBACK_ANALYSIS)` with `summary` replaced by
`"Analysis error: {exc}"`).  Exceptions outside the caught tuple
propagate. -/
def analyzeNormalize (gw : GatewayOutcome) : Except PyExc PyDict :=
  let body : Except PyExc PyDict :=
    match gw with
    | .providerError m => .error (.openAIError m)
    | .response (.error m) => .error (.jsonDecodeError m)
    | .response (.ok j) => tryBodyAnalyze j
  match body with
  | .ok d => .ok d
  | .error e =>
    if isCaught e then
      .ok (dictSet _FALLBACK_ANALYSIS "summary" (.str ("Analysis error: " ++ excStr e)))
    else .error e

/-- `ai_service.analyze_face_image`: validate the image (may raise
`HTTPException`), then run the gateway call and normalization.  The
base64 data URL feeds only the abstract gateway, so it is not
re-modelled; the gateway outcome is the explicit input `gw`. -/
def analyze_face_image (sizeMB : Nat) (image_bytes : List Nat)
    (gw : GatewayOutcome) : Except PyExc PyDict :=
  match _validate_image sizeMB image_bytes with
  | .error e => .error e
  | .ok _mime => analyzeNormalize gw

/-! ### Schemas (`app/schemas.py`) -/

/-- The `skin_tone` field validator of `SkinAnalysisResult`. -/
def validate_skin_tone (v : String) : String :=
  let val := pyTitle (pyStrip v)
  if val ∈ SKIN_TONES then val else "Medium"

/-- The `undertone` field validator of `SkinAnalysisResult`. -/
def validate_undertone (v : String) : String :=
  let val := pyTitle (pyStrip v)
  if val ∈ UNDERTONES then val else "Neutral"

/-- The `face_shape` field validator of `SkinAnalysisResult`. -/
def validate_face_shape (v : String) : String :=
  let val := pyTitle (pyStrip v)
  if val ∈ FACE_SHAPES then val else "Oval"

/-- The `SkinAnalysisResult` response schema (the spec's BeautyProfile). -/
structure SkinAnalysisResult where
  skin_tone : String
  undertone : String
  face_shape : String
  eye_color : String
  confidence_score : Int
  summary : String

/-- Pydantic construction of `SkinAnalysisResult` from string fields and an
integer score: the `ge=0, le=100` bound on `confidence_score` rejects
out-of-range values, the three enum validators substitute defaults. -/
def mkSkinAnalysisResult (skin_tone undertone face_shape eye_color : String)
    (confidence_score : Int) (summary : String) : Except String SkinAnalysisResult :=
  if confidence_score < 0 ∨ 100 < confidence_score then
    .error "1 validation error for SkinAnalysisResult: confidence_score"
  else
    .ok { skin_tone := validate_skin_tone skin_tone,
          undertone := validate_undertone undertone,
          face_shape := validate_face_shape face_shape,
          eye_color := eye_color,
          confidence_score := confidence_score,
          summary := summary }

/-- The `ProductShade` schema.  `price` is an optional number (modelled as
a rational); neither optional field is inspected by the matching logic. -/
structure ProductShade where
  id : String
  name : String
  hex_code : String
  category : String
  price : Option Rat
  description : Option String

/-- The `hex_code` field validator of `ProductShade`: strip, require a
leading `#` and a total length of 4 or 7, then upper-case. -/
def validate_hex (v : String) : Except String String :=
  let t := pyStrip v
  if (!strStartsWith t "#" || (t.length != 4 && t.length != 7)) = true then
    .error ("'" ++ t ++ "' is not a valid hex colour code (e.g. #FFDAB9).")
  else
    .ok (pyUpper t)

/-- The `MatchResult` response schema. -/
structure MatchResult where
  best_match_id : String
  match_score : Int
  reasoning : String
  matched_product : Option ProductShade

/-! ### Shade matching (`get_shade_recommendation`) -/

/-- The body of the `try` block of `get_shade_recommendation` after the
parsed response `j` is bound (lines 230–254): check `best_match_id`
against the supplied ids, substitute the first product's id when unknown,
resolve `matched_product` by linear search, clamp `match_score`, and
build the `MatchResult`.  A non-`dict` parse result raises
`AttributeError`; an unknown id with an empty product list raises
`IndexError` at `products[0]`; a non-string `reasoning` fails pydantic
validation of `MatchResult` (a `ValueError`). -/
def tryBodyMatch (products : List ProductShade) (j : Json) : Except PyExc MatchResult :=
  match j with
  | .obj kvs =>
    let validIds := products.map ProductShade.id
    let known : Bool :=
      match dictGet kvs "best_match_id" with
      | some (.str s) => validIds.contains s
      | _ => false
    let substituted : Except PyExc PyDict :=
      if known then .ok kvs
      else
        match products with
        | [] => .error (.indexError "list index out of range")
        | p0 :: _ => .ok (dictSet kvs "best_match_id" (.str p0.id))
    match substituted with
    | .error e => .error e
    | .ok d1 =>
      match dictGet d1 "best_match_id" with
      | some (.str bid) =>
        let matched := products.find? (fun p => p.id == bid)
        match pyInt ((dictGet d1 "match_score").getD (.num 0)) with
        | .error e => .error e
        | .ok n =>
          match dictGet d1 "reasoning" with
          | some (.str r) => .ok ⟨bid, pyClamp n, r, matched⟩
          | none => .ok ⟨bid, pyClamp n, "", matched⟩
          | some _ =>
            .error (.valueError "1 validation error for MatchResult: reasoning")
      | _ => .error (.keyError "'best_match_id'")
  | _ =>
    .error (.attributeError ("'" ++ jsonTypeName j ++ "' object has no attribute 'get'"))

/-- `ai_service.get_shade_recommendation`: run the gateway call and the
`try` body; the `except (OpenAIError, json.JSONDecodeError, KeyError,
ValueError)` handler re-raises as `AIServiceError("Recommendation failed:
{exc}")`; exceptions outside the caught tuple propagate. -/
def get_shade_recommendation (products : List ProductShade)
    (gw : GatewayOutcome) : Except PyExc MatchResult :=
  let body : Except PyExc MatchResult :=
    match gw with
    | .providerError m => .error (.openAIError m)
    | .response (.error m) => .error (.jsonDecodeError m)
    | .response (.ok j) => tryBodyMatch products j
  match body with
  | .ok r => .ok r
  | .error e =>
    if isCaught e then
      .error (.aiServiceError ("Recommendation failed: " ++ excStr e))
    else .error e

/-! ### Specification-side definitions (for refinement comparisons) -/

/-- The WebP condition exactly as the specification words it: a RIFF
container (leading `RIFF` bytes) with a `WEBP` marker within the first
12 bytes.  Stated from the spec, to be compared with `_detect_mime`. -/
def specWebpSig (b : List Nat) : Bool :=
  decide (b.take 4 = riffSig) && listContainsSub webpSig (b.take 12)

/-- A hexadecimal digit. -/
def isHexDigitC (c : Char) : Bool :=
  c.isDigit || ('a' ≤ c && c ≤ 'f') || ('A' ≤ c && c ≤ 'F')

/-- The hex-code shape exactly as the specification words it: a string
matching `#RGB` or `#RRGGBB` (a `#` followed by exactly 3 or 6 hex
digits).  Stated from the spec, to be compared with `validate_hex`. -/
def specHexPattern (s : String) : Bool :=
  match s.data with
  | '#' :: rest => (rest.length == 3 || rest.length == 6) && rest.all isHexDigitC
  | _ => false

/-! ### Helper lemmas -/

theorem validate_skin_tone_of_mem {s : String} (h : s ∈ SKIN_TONES) :
    validate_skin_tone s = s := by
  simp only [SKIN_TONES, List.mem_cons, List.mem_singleton, List.not_mem_nil, or_false] at h
  rcases h with h | h | h | h | h <;> subst h <;> rfl

theorem validate_undertone_of_mem {s : String} (h : s ∈ UNDERTONES) :
    validate_undertone s = s := by
  simp only [UNDERTONES, List.mem_cons, List.mem_singleton, List.not_mem_nil, or_false] at h
  rcases h with h | h | h <;> subst h <;> rfl

theorem validate_face_shape_of_mem {s : String} (h : s ∈ FACE_SHAPES) :
    validate_face_shape s = s := by
  simp only [FACE_SHAPES, List.mem_cons, List.mem_singleton, List.not_mem_nil, or_false] at h
  rcases h with h | h | h | h | h | h <;> subst h <;> rfl

theorem title_strip_of_mem_shapes {s : String} (h : s ∈ FACE_SHAPES) :
    pyTitle (pyStrip s) = s := by
  simp only [FACE_SHAPES, List.mem_cons, List.mem_singleton, List.not_mem_nil, or_false] at h
  rcases h with h | h | h | h | h | h <;> subst h <;> rfl

theorem dictGet_dictSet_self (d : PyDict) (k : String) (v : Json) :
    dictGet (dictSet d k v) k = some v := by
  induction d with
  | nil => simp [dictGet, dictSet]
  | cons kv t ih =>
    by_cases h : kv.1 = k
    · simp [dictSet, dictGet, h]
    · simp [dictSet, dictGet, h, ih]

theorem dictGet_dictSet_ne (d : PyDict) {k k' : String} (v : Json) (hne : k ≠ k') :
    dictGet (dictSet d k v) k' = dictGet d k' := by
  induction d with
  | nil => simp [dictGet, dictSet, hne]
  | cons kv t ih =>
    by_cases h : kv.1 = k
    · rw [show dictSet (kv :: t) k v = (k, v) :: t by simp [dictSet, h]]
      simp [dictGet, hne, h]
    · rw [show dictSet (kv :: t) k v = kv :: dictSet t k v by simp [dictSet, h]]
      simp [dictGet, ih]

theorem find?_id_of_mem {l : List ProductShade} {s : String}
    (h : s ∈ l.map ProductShade.id) :
    ∃ q, l.find? (fun p => p.id == s) = some q ∧ q ∈ l := by
  induction l with
  | nil => simp at h
  | cons a t ih =>
    by_cases ha : a.id = s
    · exact ⟨a, List.find?_cons_of_pos t (by simp [ha]), List.mem_cons_self a t⟩
    · have h' : s ∈ t.map ProductShade.id := by
        rcases List.mem_cons.mp h with h | h
        · exact absurd h.symm ha
        · exact h
      obtain ⟨q, hq, hqm⟩ := ih h'
      refine ⟨q, ?_, List.mem_cons_of_mem a hqm⟩
      rw [List.find?_cons_of_neg t (by simp [ha])]
      exact hq

/-! ### Shared concrete fixtures -/

/-- A parsed analysis response with valid string fields and no
`confidence_score` entry. -/
def analysisFields : PyDict :=
  [("skin_tone", .str "Medium"),
   ("undertone", .str "Warm"),
   ("face_shape", .str "Oval"),
   ("eye_color", .str "Brown"),
   ("summary", .str "s")]

/-- `analysisFields` extended with a `confidence_score` entry. -/
def scoreDict (c : Json) : PyDict := analysisFields ++ [("confidence_score", c)]

/-- A concrete validated product, as supplied by a caller. -/
def prodP1 : ProductShade := ⟨"p1", "Peachy Blush", "#FFDAB9", "Lipstick", none, none⟩

/-- A second concrete validated product. -/
def prodP2 : ProductShade := ⟨"p2", "Rosy Nude", "#C48189", "Lipstick", none, none⟩

/-- A parsed matching response naming a product id (`"p9"`) that is not in
the supplied list. -/
def matchDict9 : PyDict :=
  [("best_match_id", .str "p9"), ("match_score", .num 88), ("reasoning", .str "why")]

/-- The serialized form (`model_dump`) of a `SkinAnalysisResult`, in field
declaration order. -/
def profileToDict (p : SkinAnalysisResult) : PyDict :=
  [("skin_tone", .str p.skin_tone),
   ("undertone", .str p.undertone),
   ("face_shape", .str p.face_shape),
   ("eye_color", .str p.eye_color),
   ("confidence_score", .num p.confidence_score),
   ("summary", .str p.summary)]

/-- A concrete normalized profile used as the C10 witness input. -/
def normProfile : SkinAnalysisResult := ⟨"Deep", "Cool", "Heart", "Hazel", 85, "great"⟩

/-! ### The claims -/

/-- Claim C1 (code_bug evidence): the claim — backed by the function's own
docstring "Never raises — returns `_FALLBACK_ANALYSIS` on any error" —
says the post-gateway processing of `analyze_face_image` returns a fully
populated profile for every raw response text, including JSON that is not
an object.  The code, however, only catches `(OpenAIError,
json.JSONDecodeError, KeyError, ValueError)`: when the model returns the
valid JSON text `"[1, 2]"` (a JSON array), `result.get("face_shape")`
raises an uncaught `AttributeError`, which propagates to the caller.
This theorem evaluates the embedded pipeline at that failing input (with
a valid JPEG image so validation passes). -/
theorem c1_nonobject_response_raises :
    analyze_face_image MAX_IMAGE_SIZE_MB_default [0xff, 0xd8, 0xff]
        (.response (.ok (.arr [.num 1, .num 2])))
      = .error (.attributeError "'list' object has no attribute 'get'") := rfl

/-- Claim C2: for face analysis, every provider error (`OpenAIError`) and
every parse failure of the model's response (`json.JSONDecodeError`) is
absorbed into the documented fallback profile (skin_tone Medium,
undertone Neutral, face_shape Oval, eye_color Unknown, confidence_score
0) and never surfaced; for shade matching the same two failure classes
surface as `AIServiceError` for every product list. -/
theorem c2_failure_asymmetry (m : String) (products : List ProductShade) :
    analyzeNormalize (.providerError m)
      = .ok [("skin_tone", .str "Medium"),
             ("undertone", .str "Neutral"),
             ("face_shape", .str "Oval"),
             ("eye_color", .str "Unknown"),
             ("confidence_score", .num 0),
             ("summary", .str ("Analysis error: " ++ m))] ∧
    analyzeNormalize (.response (.error m))
      = .ok [("skin_tone", .str "Medium"),
             ("undertone", .str "Neutral"),
             ("face_shape", .str "Oval"),
             ("eye_color", .str "Unknown"),
             ("confidence_score", .num 0),
             ("summary", .str ("Analysis error: " ++ m))] ∧
    get_shade_recommendation products (.providerError m)
      = .error (.aiServiceError ("Recommendation failed: " ++ m)) ∧
    get_shade_recommendation products (.response (.error m))
      = .error (.aiServiceError ("Recommendation failed: " ++ m)) :=
  ⟨rfl, rfl, rfl, rfl⟩

/-- Claim C7 (counterexample): the claim says a non-numeric `match_score`
normalizes to 0 in shade matching; in the code `int("high")` raises
`ValueError`, which the handler converts into a surfaced
`AIServiceError` — no `MatchResult` with score 0 is returned. -/
theorem c7_nonnumeric_match_score_raises :
    get_shade_recommendation [prodP1]
        (.response (.ok (.obj [("best_match_id", .str "p1"),
                               ("match_score", .str "high")])))
      = .error (.aiServiceError
          "Recommendation failed: invalid literal for int() with base 10: 'high'") := rfl

/-- Claim C7 (amended): score inputs −5, 0, 100, 150 clamp to 0, 0, 100,
100 for both `confidence_score` (analysis) and `match_score` (matching),
and a missing value becomes 0 for both; a non-numeric value yields a
fallback profile with `confidence_score` 0 for analysis, but makes shade
matching fail with `AIServiceError` instead of normalizing to 0. -/
theorem c7_score_clamping_amended :
    analyzeNormalize (.response (.ok (.obj (scoreDict (.num (-5)))))) = .ok (scoreDict (.num 0)) ∧
    analyzeNormalize (.response (.ok (.obj (scoreDict (.num 0))))) = .ok (scoreDict (.num 0)) ∧
    analyzeNormalize (.response (.ok (.obj (scoreDict (.num 100))))) = .ok (scoreDict (.num 100)) ∧
    analyzeNormalize (.response (.ok (.obj (scoreDict (.num 150))))) = .ok (scoreDict (.num 100)) ∧
    analyzeNormalize (.response (.ok (.obj analysisFields))) = .ok (scoreDict (.num 0)) ∧
    analyzeNormalize (.response (.ok (.obj (scoreDict (.str "abc")))))
      = .ok [("skin_tone", .str "Medium"),
             ("undertone", .str "Neutral"),
             ("face_shape", .str "Oval"),
             ("eye_color", .str "Unknown"),
             ("confidence_score", .num 0),
             ("summary", .str "Analysis error: invalid literal for int() with base 10: 'abc'")] ∧
    get_shade_recommendation [prodP1]
        (.response (.ok (.obj [("best_match_id", .str "p1"), ("match_score", .num (-5))])))
      = .ok ⟨"p1", 0, "", some prodP1⟩ ∧
    get_shade_recommendation [prodP1]
        (.response (.ok (.obj [("best_match_id", .str "p1"), ("match_score", .num 0)])))
      = .ok ⟨"p1", 0, "", some prodP1⟩ ∧
    get_shade_recommendation [prodP1]
        (.response (.ok (.obj [("best_match_id", .str "p1"), ("match_score", .num 100)])))
      = .ok ⟨"p1", 100, "", some prodP1⟩ ∧
    get_shade_recommendation [prodP1]
        (.response (.ok (.obj [("best_match_id", .str "p1"), ("match_score", .num 150)])))
      = .ok ⟨"p1", 100, "", some prodP1⟩ ∧
    get_shade_recommendation [prodP1]
        (.response (.ok (.obj [("best_match_id", .str "p1")])))
      = .ok ⟨"p1", 0, "", some prodP1⟩ ∧
    get_shade_recommendation [prodP1]
        (.response (.ok (.obj [("best_match_id", .str "p1"), ("match_score", .str "n/a")])))
      = .error (.aiServiceError
          "Recommendation failed: invalid literal for int() with base 10: 'n/a'") :=
  ⟨rfl, rfl, rfl, rfl, rfl, rfl, rfl, rfl, rfl, rfl, rfl, rfl⟩

/-- Claim C8: for every byte string longer than the configured ceiling
(`MAX_IMAGE_SIZE_MB * 1024 * 1024` bytes), `analyze_face_image` fails with
the 413 `HTTPException` regardless of the bytes' content and regardless
of the gateway outcome — i.e. before any external model call could
matter. -/
theorem c8_size_limit_fail_fast (sizeMB : Nat) (image_bytes : List Nat)
    (gw : GatewayOutcome) (h : image_bytes.length > sizeMB * 1024 * 1024) :
    analyze_face_image sizeMB image_bytes gw
      = .error (.httpError 413 ("Image exceeds the " ++ toString sizeMB ++ " MB limit.")) := by
  unfold analyze_face_image _validate_image
  rw [if_pos h]

/-- Witness for C8 at a concrete input: a 1-byte image with a 0 MB
ceiling, under an arbitrary concrete gateway outcome. -/
theorem c8_size_limit_fail_fast_witness :
    analyze_face_image 0 [0] (.providerError "unused")
      = .error (.httpError 413 "Image exceeds the 0 MB limit.") :=
  c8_size_limit_fail_fast 0 [0] (.providerError "unused") (by decide)

/-- Claim C9 (counterexample): the claim says `validate_hex` accepts
exactly the strings matching `#RGB` or `#RRGGBB`; the code only checks
the leading `#` and the length, so `"#zzz"` — which contains no hex
digits — is accepted and upper-cased. -/
theorem c9_nonhex_accepted :
    validate_hex "#zzz" = .ok "#ZZZ" ∧ specHexPattern "#zzz" = false :=
  ⟨rfl, rfl⟩

/-- Claim C9 (amended): `validate_hex` accepts exactly the strings whose
whitespace-stripped form starts with `#` and has total length 4 or 7 —
the characters after `#` are not checked to be hex digits — and
case-normalizes accepted values to uppercase; `"#fda"` is accepted as
`"#FDA"` and `"123456"` is rejected with a validation error. -/
theorem c9_hex_validation_amended (v r : String) :
    (validate_hex v = .ok r ↔
      (strStartsWith (pyStrip v) "#" = true ∧
        ((pyStrip v).length = 4 ∨ (pyStrip v).length = 7) ∧
        r = pyUpper (pyStrip v))) ∧
    validate_hex "#fda" = .ok "#FDA" ∧
    validate_hex "123456"
      = .error "'123456' is not a valid hex colour code (e.g. #FFDAB9)." := by
  refine ⟨?_, rfl, rfl⟩
  unfold validate_hex
  by_cases h1 : strStartsWith (pyStrip v) "#"
  · by_cases h2 : (pyStrip v).length = 4
    · simp [h1, h2, eq_comm]
    · by_cases h3 : (pyStrip v).length = 7
      · simp [h1, h2, h3, eq_comm]
      · simp [h1, h2, h3]
  · simp [h1]

/-- Claim C4 (counterexample): the claim says `_detect_mime` returns
`image/webp` exactly for a RIFF container with a `WEBP` marker in the
first 12 bytes; but the code's condition `image_bytes[:4] in (b"RIFF",
b"WEBP") or b"WEBP" in image_bytes[:12]` already fires on the four bytes
`RIFF` alone, which carry no `WEBP` marker. -/
theorem c4_riff_without_webp_marker :
    _detect_mime [0x52, 0x49, 0x46, 0x46] = "image/webp" ∧
    specWebpSig [0x52, 0x49, 0x46, 0x46] = false :=
  ⟨rfl, rfl⟩

/-- Claim C4 (amended): MIME detection returns `image/jpeg` exactly when
the first three bytes are `FF D8 FF`; `image/png` exactly when the first
eight bytes are the PNG signature; `image/webp` exactly when neither of
those holds and the first four bytes are `RIFF` or `WEBP` or `WEBP`
occurs within the first 12 bytes; every byte string matching none of
these yields `application/octet-stream`, and validation of such bytes
(when within the size limit) fails with the 415 unsupported-type
error. -/
theorem c4_detect_mime_amended (b : List Nat) (sizeMB : Nat) :
    (_detect_mime b = "image/jpeg" ↔ b.take 3 = jpegSig) ∧
    (_detect_mime b = "image/png" ↔ b.take 8 = pngSig) ∧
    (_detect_mime b = "image/webp" ↔
      (b.take 3 ≠ jpegSig ∧ b.take 8 ≠ pngSig ∧
        (b.take 4 = riffSig ∨ b.take 4 = webpSig ∨
          listContainsSub webpSig (b.take 12) = true))) ∧
    (b.take 3 ≠ jpegSig → b.take 8 ≠ pngSig →
      ¬(b.take 4 = riffSig ∨ b.take 4 = webpSig ∨
          listContainsSub webpSig (b.take 12) = true) →
      _detect_mime b = "application/octet-stream") ∧
    (_detect_mime b = "application/octet-stream" →
      b.length ≤ sizeMB * 1024 * 1024 →
      _validate_image sizeMB b = .error (.httpError 415
        "Unsupported image type 'application/octet-stream'. Accepted: JPEG, PNG, WebP.")) := by
  have hpj : b.take 8 = pngSig → b.take 3 ≠ jpegSig := by
    intro h8 hj
    have h38 : (b.take 8).take 3 = b.take 3 := by
      rw [List.take_take]
      norm_num
    rw [h8, hj] at h38
    exact absurd h38 (by decide)
  have hoct : _detect_mime b = "application/octet-stream" →
      b.length ≤ sizeMB * 1024 * 1024 →
      _validate_image sizeMB b = .error (.httpError 415
        "Unsupported image type 'application/octet-stream'. Accepted: JPEG, PNG, WebP.") := by
    intro hdet hlen
    unfold _validate_image
    rw [if_neg (by omega), hdet]
    rfl
  refine ⟨?_, ?_, ?_, ?_, hoct⟩
  · by_cases h1 : b.take 3 = jpegSig
    · exact iff_of_true (by simp [_detect_mime, h1]) h1
    · simp only [_detect_mime, if_neg h1]
      split_ifs with h2 h3
      · exact iff_of_false (by decide) h1
      · exact iff_of_false (by decide) h1
      · exact iff_of_false (by decide) h1
  · by_cases h2 : b.take 8 = pngSig
    · exact iff_of_true (by simp [_detect_mime, if_neg (hpj h2), h2]) h2
    · simp only [_detect_mime]
      split_ifs with h1 h3
      · exact iff_of_false (by decide) h2
      · exact iff_of_false (by decide) h2
      · exact iff_of_false (by decide) h2
  · by_cases h1 : b.take 3 = jpegSig
    · simp only [_detect_mime, if_pos h1]
      exact iff_of_false (by decide) (fun hc => hc.1 h1)
    · by_cases h2 : b.take 8 = pngSig
      · simp only [_detect_mime, if_neg h1, if_pos h2]
        exact iff_of_false (by decide) (fun hc => hc.2.1 h2)
      · by_cases h3 : (b.take 4 = riffSig ∨ b.take 4 = webpSig ∨
            listContainsSub webpSig (b.take 12) = true)
        · simp only [_detect_mime, if_neg h1, if_neg h2, if_pos h3]
          exact iff_of_true trivial ⟨h1, h2, h3⟩
        · simp only [_detect_mime, if_neg h1, if_neg h2, if_neg h3]
          exact iff_of_false (by decide) (fun hc => h3 hc.2.2)
  · intro h1 h2 h3
    simp [_detect_mime, if_neg h1, if_neg h2, if_neg h3]

/-- Witness for C4 at a concrete input: the single byte `0x00` matches no
signature, is detected as `application/octet-stream`, and is rejected by
validation with the 415 error. -/
theorem c4_detect_mime_amended_witness :
    _validate_image 5 [0] = .error (.httpError 415
      "Unsupported image type 'application/octet-stream'. Accepted: JPEG, PNG, WebP.") :=
  (c4_detect_mime_amended [0] 5).2.2.2.2 rfl (by decide)

/-- Claim C5 (code_bug evidence): the claim — matching the spec's
invariant and `SkinAnalysisResult`, whose own docstring calls it the
"Response schema for the /analyze endpoint" — says every produced
profile holds a valid `skin_tone` and `undertone`.  But the sanitize
block of `analyze_face_image` (lines 161–165) touches only `face_shape`,
`confidence_score`, `eye_color` and `summary`: `skin_tone` and
`undertone` pass through unvalidated, and the route persists and returns
them via the validator-free `UserProfile` / `UserProfileResponse`,
bypassing the pydantic validators that would have substituted the
documented defaults.  This theorem evaluates the embedded analysis
pipeline at a response carrying `skin_tone = "Porcelain"` and
`undertone = "Golden"`: both non-members survive normalization
unchanged, though the (bypassed) validators would have mapped them to
Medium / Neutral. -/
theorem c5_unvalidated_tone_passthrough :
    analyzeNormalize (.response (.ok (.obj
        [("skin_tone", .str "Porcelain"), ("undertone", .str "Golden"),
         ("face_shape", .str "Oval"), ("eye_color", .str "Brown"),
         ("confidence_score", .num 80), ("summary", .str "s")])))
      = .ok [("skin_tone", .str "Porcelain"), ("undertone", .str "Golden"),
             ("face_shape", .str "Oval"), ("eye_color", .str "Brown"),
             ("confidence_score", .num 80), ("summary", .str "s")] ∧
    ("Porcelain" : String) ∉ SKIN_TONES ∧
    ("Golden" : String) ∉ UNDERTONES ∧
    validate_skin_tone "Porcelain" = "Medium" ∧
    validate_undertone "Golden" = "Neutral" :=
  ⟨rfl, by decide, by decide, rfl, rfl⟩

/-- Claim C6: face-shape resolution keeps a case-normalized valid field
value; otherwise it scans the summary (case-insensitively) for the six
shape names in the fixed order oval, round, square, heart, diamond,
oblong and takes the first found, defaulting to Oval when none occurs.
With `face_shape` absent and summary `"Her round face and warm
tone..."`, the resolved shape is `"Round"`; a summary containing both
`"round"` and `"oval"` resolves to `"Oval"` (the scan order is by
candidate priority, not text position). -/
theorem c6_face_shape_resolution (kvs : PyDict) (v sm : String)
    (hv : dictGet kvs "face_shape" = some (.str v))
    (hs : dictGet kvs "summary" = some (.str sm)) :
    (pyTitle (pyStrip v) ∈ FACE_SHAPES →
      _resolve_face_shape kvs = .ok (pyTitle (pyStrip v))) ∧
    (pyTitle (pyStrip v) ∉ FACE_SHAPES →
      _resolve_face_shape kvs = .ok (scanShapes (pyLower sm))) ∧
    ((∀ c ∈ shapeCandidates, strContains (pyLower sm) c = false) →
      scanShapes (pyLower sm) = "Oval") ∧
    _resolve_face_shape [("summary", .str "Her round face and warm tone...")]
      = .ok "Round" ∧
    scanShapes "round oval" = "Oval" := by
  refine ⟨?_, ?_, ?_, rfl, rfl⟩
  · intro hm
    simp [_resolve_face_shape, hv, pyOrStr, hm]
  · intro hm
    simp [_resolve_face_shape, hv, hs, pyOrStr, hm]
  · intro hall
    have hnone : shapeCandidates.find? (fun c => strContains (pyLower sm) c) = none :=
      List.find?_eq_none.mpr (fun c hc => by simp [hall c hc])
    unfold scanShapes
    rw [hnone]

/-- Witness for C6 at a concrete input: the field value `"squarish"` is
not a valid shape, so the summary scan finds `"heart"`. -/
theorem c6_face_shape_resolution_witness :
    (pyTitle (pyStrip "squarish") ∈ FACE_SHAPES →
      _resolve_face_shape [("face_shape", .str "squarish"),
                           ("summary", .str "a heart shaped face")]
        = .ok (pyTitle (pyStrip "squarish"))) ∧
    (pyTitle (pyStrip "squarish") ∉ FACE_SHAPES →
      _resolve_face_shape [("face_shape", .str "squarish"),
                           ("summary", .str "a heart shaped face")]
        = .ok (scanShapes (pyLower "a heart shaped face"))) ∧
    ((∀ c ∈ shapeCandidates,
        strContains (pyLower "a heart shaped face") c = false) →
      scanShapes (pyLower "a heart shaped face") = "Oval") ∧
    _resolve_face_shape [("summary", .str "Her round face and warm tone...")]
      = .ok "Round" ∧
    scanShapes "round oval" = "Oval" :=
  c6_face_shape_resolution
    [("face_shape", .str "squarish"), ("summary", .str "a heart shaped face")]
    "squarish" "a heart shaped face" rfl rfl

/-- Claim C3 (counterexample): the claim quantifies over every
well-formed (parseable) structured response with an unknown
`best_match_id` and promises a `MatchResult` carrying the first product.
But at the parseable response `{"best_match_id": "p9", "match_score":
"high"}` with products `[p1, p2]`, the code substitutes `"p1"` and then
`int("high")` raises `ValueError`, re-raised as `AIServiceError`: no
`MatchResult` is returned at all. -/
theorem c3_unknown_id_nonnumeric_raises :
    get_shade_recommendation [prodP1, prodP2]
        (.response (.ok (.obj [("best_match_id", .str "p9"),
                               ("match_score", .str "high")])))
      = .error (.aiServiceError
          "Recommendation failed: invalid literal for int() with base 10: 'high'") := rfl

/-- Claim C3 (amended): for a non-empty product list and a structured
response whose `best_match_id` is a string not among the supplied ids,
whose `match_score` is absent or an integer, and whose `reasoning` is
absent or a string, normalization returns a `MatchResult` whose
`best_match_id` is the first product's id and whose `matched_product` is
that first product; for any such response (known or unknown id),
`matched_product` always resolves to a member of the supplied list.
(Responses that are parseable but carry a non-numeric `match_score`
instead fail with `AIServiceError` — see the counterexample.) -/
theorem c3_unknown_id_fallback (p0 : ProductShade) (ps : List ProductShade)
    (kvs : PyDict) (s : String)
    (hbid : dictGet kvs "best_match_id" = some (.str s))
    (hms : dictGet kvs "match_score" = none ∨
      ∃ n : Int, dictGet kvs "match_score" = some (.num n))
    (hrs : dictGet kvs "reasoning" = none ∨
      ∃ r0 : String, dictGet kvs "reasoning" = some (.str r0)) :
    (s ∉ (p0 :: ps).map ProductShade.id →
      ∃ r, get_shade_recommendation (p0 :: ps) (.response (.ok (.obj kvs))) = .ok r ∧
        r.best_match_id = p0.id ∧ r.matched_product = some p0) ∧
    (∃ r q, get_shade_recommendation (p0 :: ps) (.response (.ok (.obj kvs))) = .ok r ∧
      q ∈ p0 :: ps ∧ r.matched_product = some q) := by
  have hiff : (s = p0.id ∨ ∃ a ∈ ps, a.id = s) ↔ s ∈ (p0 :: ps).map ProductShade.id := by
    constructor
    · rintro (h | ⟨a, ha, hae⟩)
      · exact List.mem_map.mpr ⟨p0, List.mem_cons_self _ _, h.symm⟩
      · exact List.mem_map.mpr ⟨a, List.mem_cons_of_mem _ ha, hae⟩
    · intro h
      rcases List.mem_map.mp h with ⟨a, ha, hae⟩
      rcases List.mem_cons.mp ha with rfl | ha'
      · exact Or.inl hae.symm
      · exact Or.inr ⟨a, ha', hae⟩
  by_cases hk : s ∈ (p0 :: ps).map ProductShade.id
  · have hcond : s = p0.id ∨ ∃ a ∈ ps, a.id = s := hiff.mpr hk
    obtain ⟨q, hq, hqm⟩ := find?_id_of_mem hk
    refine ⟨fun hc => absurd hk hc, ?_⟩
    rcases hms with hms | ⟨n, hms⟩ <;> rcases hrs with hrs | ⟨r0, hrs⟩
    · exact ⟨⟨s, pyClamp 0, "", some q⟩, q, by
        simp [get_shade_recommendation, tryBodyMatch, hbid, hcond, hms, hrs, hq,
          pyInt, Option.getD], hqm, rfl⟩
    · exact ⟨⟨s, pyClamp 0, r0, some q⟩, q, by
        simp [get_shade_recommendation, tryBodyMatch, hbid, hcond, hms, hrs, hq,
          pyInt, Option.getD], hqm, rfl⟩
    · exact ⟨⟨s, pyClamp n, "", some q⟩, q, by
        simp [get_shade_recommendation, tryBodyMatch, hbid, hcond, hms, hrs, hq,
          pyInt, Option.getD], hqm, rfl⟩
    · exact ⟨⟨s, pyClamp n, r0, some q⟩, q, by
        simp [get_shade_recommendation, tryBodyMatch, hbid, hcond, hms, hrs, hq,
          pyInt, Option.getD], hqm, rfl⟩
  · have hncond : ¬(s = p0.id ∨ ∃ a ∈ ps, a.id = s) := fun hc => hk (hiff.mp hc)
    have hset : dictGet (dictSet kvs "best_match_id" (.str p0.id)) "best_match_id"
        = some (.str p0.id) := dictGet_dictSet_self kvs "best_match_id" (.str p0.id)
    have hms1 : dictGet (dictSet kvs "best_match_id" (.str p0.id)) "match_score"
        = dictGet kvs "match_score" := dictGet_dictSet_ne kvs (.str p0.id) (by decide)
    have hrs1 : dictGet (dictSet kvs "best_match_id" (.str p0.id)) "reasoning"
        = dictGet kvs "reasoning" := dictGet_dictSet_ne kvs (.str p0.id) (by decide)
    have hfind : (p0 :: ps).find? (fun p => p.id == p0.id) = some p0 :=
      List.find?_cons_of_pos ps (by simp)
    rcases hms with hms | ⟨n, hms⟩ <;> rcases hrs with hrs | ⟨r0, hrs⟩
    · have hgsr : get_shade_recommendation (p0 :: ps) (.response (.ok (.obj kvs)))
          = .ok ⟨p0.id, pyClamp 0, "", some p0⟩ := by
        simp [get_shade_recommendation, tryBodyMatch, hbid, hncond, hset, hms1, hrs1,
          hms, hrs, hfind, pyInt, Option.getD]
      exact ⟨fun _ => ⟨_, hgsr, rfl, rfl⟩, _, p0, hgsr, List.mem_cons_self p0 ps, rfl⟩
    · have hgsr : get_shade_recommendation (p0 :: ps) (.response (.ok (.obj kvs)))
          = .ok ⟨p0.id, pyClamp 0, r0, some p0⟩ := by
        simp [get_shade_recommendation, tryBodyMatch, hbid, hncond, hset, hms1, hrs1,
          hms, hrs, hfind, pyInt, Option.getD]
      exact ⟨fun _ => ⟨_, hgsr, rfl, rfl⟩, _, p0, hgsr, List.mem_cons_self p0 ps, rfl⟩
    · have hgsr : get_shade_recommendation (p0 :: ps) (.response (.ok (.obj kvs)))
          = .ok ⟨p0.id, pyClamp n, "", some p0⟩ := by
        simp [get_shade_recommendation, tryBodyMatch, hbid, hncond, hset, hms1, hrs1,
          hms, hrs, hfind, pyInt, Option.getD]
      exact ⟨fun _ => ⟨_, hgsr, rfl, rfl⟩, _, p0, hgsr, List.mem_cons_self p0 ps, rfl⟩
    · have hgsr : get_shade_recommendation (p0 :: ps) (.response (.ok (.obj kvs)))
          = .ok ⟨p0.id, pyClamp n, r0, some p0⟩ := by
        simp [get_shade_recommendation, tryBodyMatch, hbid, hncond, hset, hms1, hrs1,
          hms, hrs, hfind, pyInt, Option.getD]
      exact ⟨fun _ => ⟨_, hgsr, rfl, rfl⟩, _, p0, hgsr, List.mem_cons_self p0 ps, rfl⟩

/-- Witness for C3 at a concrete input: two products, a response naming
the unknown id `"p9"`. -/
theorem c3_unknown_id_fallback_witness :
    ("p9" ∉ ([prodP1, prodP2] : List ProductShade).map ProductShade.id →
      ∃ r, get_shade_recommendation [prodP1, prodP2] (.response (.ok (.obj matchDict9)))
          = .ok r ∧ r.best_match_id = prodP1.id ∧ r.matched_product = some prodP1) ∧
    (∃ r q, get_shade_recommendation [prodP1, prodP2] (.response (.ok (.obj matchDict9)))
        = .ok r ∧ q ∈ [prodP1, prodP2] ∧ r.matched_product = some q) :=
  c3_unknown_id_fallback prodP1 [prodP2] matchDict9 "p9" rfl
    (Or.inr ⟨88, rfl⟩) (Or.inr ⟨"why", rfl⟩)

/-- Claim C10: analysis normalization is idempotent — for a profile whose
enum fields are valid members and whose score lies in [0, 100],
re-running the normalization pipeline on its serialized form returns the
very same dictionary, and pydantic re-validation reconstructs the very
same profile. -/
theorem c10_idempotence (p : SkinAnalysisResult)
    (h1 : p.skin_tone ∈ SKIN_TONES) (h2 : p.undertone ∈ UNDERTONES)
    (h3 : p.face_shape ∈ FACE_SHAPES)
    (h4 : 0 ≤ p.confidence_score) (h5 : p.confidence_score ≤ 100) :
    analyzeNormalize (.response (.ok (.obj (profileToDict p)))) = .ok (profileToDict p) ∧
    mkSkinAnalysisResult p.skin_tone p.undertone p.face_shape p.eye_color
      p.confidence_score p.summary = .ok p := by
  have hts : pyTitle (pyStrip p.face_shape) = p.face_shape := title_strip_of_mem_shapes h3
  have hres : _resolve_face_shape (profileToDict p) = .ok p.face_shape := by
    simp [_resolve_face_shape, profileToDict, dictGet, pyOrStr, hts, h3]
  have hclamp : pyClamp p.confidence_score = p.confidence_score := by
    unfold pyClamp
    omega
  have hbody : tryBodyAnalyze (.obj (profileToDict p)) = .ok (profileToDict p) := by
    simp only [tryBodyAnalyze, hres]
    simp [profileToDict, dictGet, dictSet, dictSetdefault, pyInt, hclamp, Option.getD]
  constructor
  · simp only [analyzeNormalize, hbody]
  · have hcs : ¬(p.confidence_score < 0 ∨ 100 < p.confidence_score) := by omega
    unfold mkSkinAnalysisResult
    rw [if_neg hcs, validate_skin_tone_of_mem h1, validate_undertone_of_mem h2,
      validate_face_shape_of_mem h3]

/-- Witness for C10 at a concrete normalized profile. -/
theorem c10_idempotence_witness :
    analyzeNormalize (.response (.ok (.obj (profileToDict normProfile))))
      = .ok (profileToDict normProfile) ∧
    mkSkinAnalysisResult "Deep" "Cool" "Heart" "Hazel" 85 "great" = .ok normProfile :=
  c10_idempotence normProfile (by decide) (by decide) (by decide)
    (by decide) (by decide)

end BeautyVibe
